import Mathlib

/-!
Token positions of the Dart VM (runtime/vm/token.h)

A shallow embedding of the source-position address space declared in
runtime/vm/token.h: the classifying sentinels, the position constants of
class Token, the four classification predicates, and the two transforms
ToSynthetic and FromSynthetic.

The token catalog is embedded as well: the enumeration Token::Kind, the two
lists DART_TOKEN_LIST and DART_KEYWORD_LIST with their four columns, the
tables read by Str, Precedence and Attributes, and the classification
predicates over kinds.

Positions are values of the C++ type intptr_t.  They are embedded as
mathematical integers; the arithmetic of ToSynthetic and FromSynthetic is
reduced to a signed word of w bits (two's complement), where w is the width
of intptr_t on the platform (32 or 64), taken as a parameter.
-/

namespace dart

/-! ## Machine words -/

/-- Reduction of a mathematical integer to the signed two's-complement word
of w bits that holds it: the value an intptr_t of width w has after the
operation whose exact result is x. -/
def wrapWord (w : Nat) (x : Int) : Int :=
  (x + 2 ^ (w - 1)) % 2 ^ w - 2 ^ (w - 1)

/-- The values an intptr_t of w bits can hold. -/
def FitsWord (w : Nat) (x : Int) : Prop :=
  -(2 ^ (w - 1)) ≤ x ∧ x < 2 ^ (w - 1)

instance (w : Nat) (x : Int) : Decidable (FitsWord w x) := by
  unfold FitsWord
  exact inferInstance

/-- Modelled from the spec: the ASSERT macro of platform/assert.h, which is
not among the source files.  The spec describes it as a check that is fatal at
the point of detection in the reference (debug) build; with debug = false the
assertion is compiled out and execution continues.  The failure is the value
none. -/
def ASSERT (debug : Bool) (cond : Bool) : Option Unit :=
  if debug && !cond then none else some ()

/-- Modelled from the spec: kSmiMax32 is declared in the VM's globals, outside
the source files; it is the largest 31-bit small integer, 2^30 - 1 (the layout
comment of token.h: "this organization allows for ~1 billion token
positions"). -/
def kSmiMax32 : Int := 2 ^ 30 - 1

/-- Modelled from the spec: kSmiMin32 is declared in the VM's globals, outside
the source files; it is the smallest 31-bit small integer, -2^30. -/
def kSmiMin32 : Int := -(2 ^ 30)

/-! ## CLASSIFYING_TOKEN_POSITIONS -/

namespace ClassifyingTokenPositions

def kPrivate : Int := -2
def kBox : Int := -3
def kParallelMove : Int := -4
def kTempMove : Int := -5
def kConstant : Int := -6
def kPushArgument : Int := -7
def kControlFlow : Int := -8
def kContext : Int := -9
def kMethodExtractor : Int := -10
def kLast : Int := -11

/-- The values of the CLASSIFYING_TOKEN_POSITIONS list, in the order of the
list. -/
def values : List Int :=
  [kPrivate, kBox, kParallelMove, kTempMove, kConstant, kPushArgument,
   kControlFlow, kContext, kMethodExtractor, kLast]

end ClassifyingTokenPositions

/-! ## class Token: position constants, predicates and transforms -/

namespace Token

def kNoSourcePos : Int := -1
def kMinSourcePos : Int := 0
def kMaxSourcePos : Int :=
  kSmiMax32 - (-ClassifyingTokenPositions.kLast) - 2

/-- Is token_pos a classifying sentinel source position? -/
def IsClassifying (token_pos : Int) : Bool :=
  decide (token_pos ≥ ClassifyingTokenPositions.kPrivate) &&
  decide (token_pos ≤ ClassifyingTokenPositions.kLast)

/-- Is token_pos a synthetic source position? -/
def IsSynthetic (token_pos : Int) : Bool :=
  if token_pos ≥ kMinSourcePos then
    false
  else if token_pos < ClassifyingTokenPositions.kLast then
    true
  else
    false

/-- Is token_pos the no source position sentinel? -/
def IsNoSource (token_pos : Int) : Bool :=
  decide (token_pos = kNoSourcePos)

/-- Is token_pos a real source position? -/
def IsReal (token_pos : Int) : Bool :=
  decide (token_pos ≥ kMinSourcePos)

/-- Is token_pos a source position? -/
def IsSourcePosition (token_pos : Int) : Bool :=
  IsReal token_pos || IsNoSource token_pos || IsSynthetic token_pos

/-- Is token_pos a debug pause source position? -/
def IsDebugPause (token_pos : Int) : Bool :=
  IsReal token_pos

/-- Encode token_pos into a synthetic source position.  The result is none
when an assertion fails in a debug build. -/
def ToSynthetic (w : Nat) (debug : Bool) (token_pos : Int) : Option Int :=
  if IsClassifying token_pos || IsNoSource token_pos then
    some token_pos
  else if IsSynthetic token_pos then
    some token_pos
  else do
    ASSERT debug (!IsSynthetic token_pos)
    let value : Int :=
      wrapWord w (wrapWord w (ClassifyingTokenPositions.kLast - 1) - token_pos)
    ASSERT debug (IsSynthetic value)
    ASSERT debug (decide (value < ClassifyingTokenPositions.kLast))
    pure value

/-- Decode token_pos from a synthetic source position.  The result is none
when an assertion fails in a debug build. -/
def FromSynthetic (w : Nat) (debug : Bool) (token_pos : Int) : Option Int :=
  if IsClassifying token_pos || IsNoSource token_pos then
    some token_pos
  else if !IsSynthetic token_pos then
    some token_pos
  else do
    ASSERT debug (IsSynthetic token_pos)
    let value : Int :=
      wrapWord w (wrapWord w (-token_pos) +
        wrapWord w (ClassifyingTokenPositions.kLast - 1))
    ASSERT debug (!IsSynthetic value)
    pure value

end Token

/-! ## class Token: the token catalog -/

namespace Token

/-- The enumeration Token::Kind: the kinds of DART_TOKEN_LIST, then those of
DART_KEYWORD_LIST, then kNumTokens, in the order of declaration. -/
inductive Kind where
  | kEOS
  | kLPAREN
  | kRPAREN
  | kLBRACK
  | kRBRACK
  | kLBRACE
  | kRBRACE
  | kARROW
  | kCOLON
  | kSEMICOLON
  | kPERIOD
  | kQM_PERIOD
  | kINCR
  | kDECR
  | kASSIGN
  | kASSIGN_OR
  | kASSIGN_XOR
  | kASSIGN_AND
  | kASSIGN_SHL
  | kASSIGN_SHR
  | kASSIGN_ADD
  | kASSIGN_SUB
  | kASSIGN_MUL
  | kASSIGN_TRUNCDIV
  | kASSIGN_DIV
  | kASSIGN_MOD
  | kASSIGN_COND
  | kCASCADE
  | kCOMMA
  | kOR
  | kAND
  | kBIT_OR
  | kBIT_XOR
  | kBIT_AND
  | kBIT_NOT
  | kSHL
  | kSHR
  | kADD
  | kSUB
  | kMUL
  | kDIV
  | kTRUNCDIV
  | kMOD
  | kNOT
  | kCONDITIONAL
  | kIFNULL
  | kEQ
  | kNE
  | kEQ_STRICT
  | kNE_STRICT
  | kLT
  | kGT
  | kLTE
  | kGTE
  | kISNOT
  | kINDEX
  | kASSIGN_INDEX
  | kNEGATE
  | kIDENT
  | kSTRING
  | kINTEGER
  | kDOUBLE
  | kINTERPOL_VAR
  | kINTERPOL_START
  | kINTERPOL_END
  | kAT
  | kHASH
  | kNEWLINE
  | kWHITESP
  | kERROR
  | kILLEGAL
  | kSCRIPTTAG
  | kREM
  | kABSTRACT
  | kAS
  | kASSERT
  | kBREAK
  | kCASE
  | kCATCH
  | kCLASS
  | kCONST
  | kCONTINUE
  | kDEFAULT
  | kDO
  | kELSE
  | kENUM
  | kEXPORT
  | kEXTENDS
  | kEXTERNAL
  | kFACTORY
  | kFALSE
  | kFINAL
  | kFINALLY
  | kFOR
  | kGET
  | kIF
  | kIMPLEMENTS
  | kIMPORT
  | kIN
  | kIS
  | kLIBRARY
  | kNEW
  | kNULL
  | kOPERATOR
  | kPART
  | kRETHROW
  | kRETURN
  | kSET
  | kSTATIC
  | kSUPER
  | kSWITCH
  | kTHIS
  | kTHROW
  | kTRUE
  | kTRY
  | kTYPEDEF
  | kVAR
  | kVOID
  | kWHILE
  | kWITH
  | kNumTokens
  deriving DecidableEq

open Kind

/-- The integer value of an enumerator of Kind: its position in the
declaration, starting at 0. -/
def Kind.ord (tok : Kind) : Nat := tok.toCtorIdx

instance : LE Kind := ⟨fun a b => a.ord ≤ b.ord⟩

instance : LT Kind := ⟨fun a b => a.ord < b.ord⟩

instance (a b : Kind) : Decidable (a ≤ b) := Nat.decLe a.ord b.ord

instance (a b : Kind) : Decidable (a < b) := Nat.decLt a.ord b.ord

/-- The enumeration Token::Attribute, a set of bits. -/
abbrev Attribute := Nat

def kNoAttribute : Attribute := 0
def kKeyword : Attribute := 1 <<< 0
def kPseudoKeyword : Attribute := 1 <<< 1

/-- The entries TOK(t, s, p, a) of DART_TOKEN_LIST, in order: kind, spelling,
precedence, attribute. -/
def DART_TOKEN_LIST : List (Kind × String × Nat × Attribute) := [
  (kEOS, "", 0, kNoAttribute),
  (kLPAREN, "(", 0, kNoAttribute),
  (kRPAREN, ")", 0, kNoAttribute),
  (kLBRACK, "[", 0, kNoAttribute),
  (kRBRACK, "]", 0, kNoAttribute),
  (kLBRACE, "\x7b", 0, kNoAttribute),
  (kRBRACE, "\x7d", 0, kNoAttribute),
  (kARROW, "=>", 0, kNoAttribute),
  (kCOLON, ":", 0, kNoAttribute),
  (kSEMICOLON, ";", 0, kNoAttribute),
  (kPERIOD, ".", 0, kNoAttribute),
  (kQM_PERIOD, "?.", 0, kNoAttribute),
  (kINCR, "++", 0, kNoAttribute),
  (kDECR, "--", 0, kNoAttribute),
  (kASSIGN, "=", 2, kNoAttribute),
  (kASSIGN_OR, "|=", 2, kNoAttribute),
  (kASSIGN_XOR, "^=", 2, kNoAttribute),
  (kASSIGN_AND, "&=", 2, kNoAttribute),
  (kASSIGN_SHL, "<<=", 2, kNoAttribute),
  (kASSIGN_SHR, ">>=", 2, kNoAttribute),
  (kASSIGN_ADD, "+=", 2, kNoAttribute),
  (kASSIGN_SUB, "-=", 2, kNoAttribute),
  (kASSIGN_MUL, "*=", 2, kNoAttribute),
  (kASSIGN_TRUNCDIV, "~/=", 2, kNoAttribute),
  (kASSIGN_DIV, "/=", 2, kNoAttribute),
  (kASSIGN_MOD, "%=", 2, kNoAttribute),
  (kASSIGN_COND, "??=", 2, kNoAttribute),
  (kCASCADE, "..", 2, kNoAttribute),
  (kCOMMA, ",", 1, kNoAttribute),
  (kOR, "||", 5, kNoAttribute),
  (kAND, "&&", 6, kNoAttribute),
  (kBIT_OR, "|", 9, kNoAttribute),
  (kBIT_XOR, "^", 10, kNoAttribute),
  (kBIT_AND, "&", 11, kNoAttribute),
  (kBIT_NOT, "~", 0, kNoAttribute),
  (kSHL, "<<", 12, kNoAttribute),
  (kSHR, ">>", 12, kNoAttribute),
  (kADD, "+", 13, kNoAttribute),
  (kSUB, "-", 13, kNoAttribute),
  (kMUL, "*", 14, kNoAttribute),
  (kDIV, "/", 14, kNoAttribute),
  (kTRUNCDIV, "~/", 14, kNoAttribute),
  (kMOD, "%", 14, kNoAttribute),
  (kNOT, "!", 0, kNoAttribute),
  (kCONDITIONAL, "?", 3, kNoAttribute),
  (kIFNULL, "??", 4, kNoAttribute),
  (kEQ, "==", 7, kNoAttribute),
  (kNE, "!=", 7, kNoAttribute),
  (kEQ_STRICT, "===", 7, kNoAttribute),
  (kNE_STRICT, "!==", 7, kNoAttribute),
  (kLT, "<", 8, kNoAttribute),
  (kGT, ">", 8, kNoAttribute),
  (kLTE, "<=", 8, kNoAttribute),
  (kGTE, ">=", 8, kNoAttribute),
  (kISNOT, "", 11, kNoAttribute),
  (kINDEX, "[]", 0, kNoAttribute),
  (kASSIGN_INDEX, "[]=", 0, kNoAttribute),
  (kNEGATE, "unary-", 0, kNoAttribute),
  (kIDENT, "", 0, kNoAttribute),
  (kSTRING, "", 0, kNoAttribute),
  (kINTEGER, "", 0, kNoAttribute),
  (kDOUBLE, "", 0, kNoAttribute),
  (kINTERPOL_VAR, "$", 0, kNoAttribute),
  (kINTERPOL_START, "$\x7b", 0, kNoAttribute),
  (kINTERPOL_END, "\x7d", 0, kNoAttribute),
  (kAT, "@", 0, kNoAttribute),
  (kHASH, "#", 0, kNoAttribute),
  (kNEWLINE, "\n", 0, kNoAttribute),
  (kWHITESP, "", 0, kNoAttribute),
  (kERROR, "", 0, kNoAttribute),
  (kILLEGAL, "", 0, kNoAttribute),
  (kSCRIPTTAG, "#!", 0, kNoAttribute),
  (kREM, "", 0, kNoAttribute)
]

/-- The entries KW(t, s, p, a) of DART_KEYWORD_LIST, in order: kind, spelling,
precedence, attribute. -/
def DART_KEYWORD_LIST : List (Kind × String × Nat × Attribute) := [
  (kABSTRACT, "abstract", 0, kPseudoKeyword),
  (kAS, "as", 11, kPseudoKeyword),
  (kASSERT, "assert", 11, kKeyword),
  (kBREAK, "break", 0, kKeyword),
  (kCASE, "case", 0, kKeyword),
  (kCATCH, "catch", 0, kKeyword),
  (kCLASS, "class", 0, kKeyword),
  (kCONST, "const", 0, kKeyword),
  (kCONTINUE, "continue", 0, kKeyword),
  (kDEFAULT, "default", 0, kKeyword),
  (kDO, "do", 0, kKeyword),
  (kELSE, "else", 0, kKeyword),
  (kENUM, "enum", 0, kKeyword),
  (kEXPORT, "export", 0, kPseudoKeyword),
  (kEXTENDS, "extends", 0, kKeyword),
  (kEXTERNAL, "external", 0, kPseudoKeyword),
  (kFACTORY, "factory", 0, kPseudoKeyword),
  (kFALSE, "false", 0, kKeyword),
  (kFINAL, "final", 0, kKeyword),
  (kFINALLY, "finally", 0, kKeyword),
  (kFOR, "for", 0, kKeyword),
  (kGET, "get", 0, kPseudoKeyword),
  (kIF, "if", 0, kKeyword),
  (kIMPLEMENTS, "implements", 0, kPseudoKeyword),
  (kIMPORT, "import", 0, kPseudoKeyword),
  (kIN, "in", 0, kKeyword),
  (kIS, "is", 11, kKeyword),
  (kLIBRARY, "library", 0, kPseudoKeyword),
  (kNEW, "new", 0, kKeyword),
  (kNULL, "null", 0, kKeyword),
  (kOPERATOR, "operator", 0, kPseudoKeyword),
  (kPART, "part", 0, kPseudoKeyword),
  (kRETHROW, "rethrow", 0, kKeyword),
  (kRETURN, "return", 0, kKeyword),
  (kSET, "set", 0, kPseudoKeyword),
  (kSTATIC, "static", 0, kPseudoKeyword),
  (kSUPER, "super", 0, kKeyword),
  (kSWITCH, "switch", 0, kKeyword),
  (kTHIS, "this", 0, kKeyword),
  (kTHROW, "throw", 0, kKeyword),
  (kTRUE, "true", 0, kKeyword),
  (kTRY, "try", 0, kKeyword),
  (kTYPEDEF, "typedef", 0, kPseudoKeyword),
  (kVAR, "var", 0, kKeyword),
  (kVOID, "void", 0, kKeyword),
  (kWHILE, "while", 0, kKeyword),
  (kWITH, "with", 0, kKeyword)
]

/-- Modelled from the spec: the array tok_str_ is declared in token.h and
defined in token.cc, which is not among the source files.  As the spec
describes the catalog ("each kind carries a spelling string, a precedence
rank and an attribute set", indexed by the kind's ordinal), it holds the
spelling column of DART_TOKEN_LIST followed by DART_KEYWORD_LIST. -/
def tok_str_ : List String :=
  (DART_TOKEN_LIST ++ DART_KEYWORD_LIST).map (fun e => e.2.1)

/-- Modelled from the spec: the array precedence_ is declared in token.h and
defined in token.cc, which is not among the source files; it holds the
precedence column of DART_TOKEN_LIST followed by DART_KEYWORD_LIST. -/
def precedence_ : List Nat :=
  (DART_TOKEN_LIST ++ DART_KEYWORD_LIST).map (fun e => e.2.2.1)

/-- Modelled from the spec: the array attributes_ is declared in token.h and
defined in token.cc, which is not among the source files; it holds the
attribute column of DART_TOKEN_LIST followed by DART_KEYWORD_LIST. -/
def attributes_ : List Attribute :=
  (DART_TOKEN_LIST ++ DART_KEYWORD_LIST).map (fun e => e.2.2.2)

def kFirstKeyword : Kind := kABSTRACT
def kLastKeyword : Kind := kWITH
def kNumKeywords : Int := (kLastKeyword.ord : Int) - (kFirstKeyword.ord : Int) + 1

def IsAssignmentOperator (tok : Kind) : Bool :=
  decide (kASSIGN ≤ tok) && decide (tok ≤ kASSIGN_COND)

def IsRelationalOperator (tok : Kind) : Bool :=
  decide (kLT ≤ tok) && decide (tok ≤ kGTE)

def IsEqualityOperator (tok : Kind) : Bool :=
  decide (kEQ ≤ tok) && decide (tok ≤ kNE_STRICT)

def IsStrictEqualityOperator (tok : Kind) : Bool :=
  decide (tok = kEQ_STRICT) || decide (tok = kNE_STRICT)

def IsTypeTestOperator (tok : Kind) : Bool :=
  decide (tok = kIS) || decide (tok = kISNOT)

def IsTypeCastOperator (tok : Kind) : Bool :=
  decide (tok = kAS)

def IsIndexOperator (tok : Kind) : Bool :=
  decide (tok = kINDEX) || decide (tok = kASSIGN_INDEX)

/-- The spelling of tok.  The result is none when the assertion
tok < kNumTokens fails in a debug build, or when the read is outside the
array. -/
def Str (debug : Bool) (tok : Kind) : Option String := do
  ASSERT debug (decide (tok < kNumTokens))
  tok_str_[tok.ord]?

/-- The precedence of tok.  The result is none when the assertion
tok < kNumTokens fails in a debug build, or when the read is outside the
array. -/
def Precedence (debug : Bool) (tok : Kind) : Option Nat := do
  ASSERT debug (decide (tok < kNumTokens))
  precedence_[tok.ord]?

/-- The attributes of tok.  The result is none when the assertion
tok < kNumTokens fails in a debug build, or when the read is outside the
array. -/
def Attributes (debug : Bool) (tok : Kind) : Option Attribute := do
  ASSERT debug (decide (tok < kNumTokens))
  attributes_[tok.ord]?

def IsPseudoKeyword (debug : Bool) (tok : Kind) : Option Bool := do
  let a ← Attributes debug tok
  pure ((a &&& kPseudoKeyword) != 0)

def IsKeyword (debug : Bool) (tok : Kind) : Option Bool := do
  let a ← Attributes debug tok
  pure ((a &&& kKeyword) != 0)

def IsIdentifier (debug : Bool) (tok : Kind) : Option Bool :=
  if tok = kIDENT then some true else IsPseudoKeyword debug tok

def CanBeOverloaded (debug : Bool) (tok : Kind) : Option Bool := do
  ASSERT debug (decide (tok < kNumTokens))
  pure (IsRelationalOperator tok ||
    decide (tok = kEQ) ||
    (decide (tok ≥ kADD) && decide (tok ≤ kMOD)) ||
    (decide (tok ≥ kBIT_OR) && decide (tok ≤ kSHR)) ||
    decide (tok = kINDEX) ||
    decide (tok = kASSIGN_INDEX))

/-- For a comparison operation return an operation for the negated
comparison.  Modelled from the spec: the macro UNREACHABLE of
platform/assert.h is not among the source files; the spec describes reaching
it as a fatal programming error in every build, so the default branch is the
failure none and the return that follows it is never executed. -/
def NegateComparison (op : Kind) : Option Kind :=
  match op with
  | kEQ => some kNE
  | kNE => some kEQ
  | kLT => some kGTE
  | kGT => some kLTE
  | kLTE => some kGT
  | kGTE => some kLT
  | kEQ_STRICT => some kNE_STRICT
  | kNE_STRICT => some kEQ_STRICT
  | kIS => some kISNOT
  | kISNOT => some kIS
  | _ => none

/-- The operator precedence table of the comment that opens token.h: each
rank with the spellings the comment lists for it. -/
def precedenceTable : List (Nat × List String) := [
  (14, ["*", "/", "~/", "%"]),
  (13, ["+", "-"]),
  (12, ["<<", ">>"]),
  (11, ["&"]),
  (10, ["^"]),
  (9, ["|"]),
  (8, [">=", ">", "<=", "<", "is", "as"]),
  (7, ["==", "!=", "===", "!=="]),
  (6, ["&&"]),
  (5, ["||"]),
  (4, ["??"]),
  (3, ["?"]),
  (2, ["=", "*=", "/=", "~/=", "%=", "+=", "-=", "<<=", ">>=", "&=", "^=",
       "|=", "??="]),
  (1, [","])
]

/-- The rank the operator precedence table gives to a spelling: the rank of
the first row that lists it, none when no row does. -/
def tableRank (s : String) : Option Nat :=
  (precedenceTable.find? (fun row => row.2.contains s)).map (fun row => row.1)

end Token

/-! ## Auxiliary facts -/

theorem two_pow_word {w : Nat} (hw : 1 ≤ w) :
    (2 : Int) ^ w = 2 * 2 ^ (w - 1) := by
  obtain ⟨k, rfl⟩ : ∃ k, w = k + 1 := ⟨w - 1, by omega⟩
  simp [pow_succ, mul_comm]

theorem two_pow_half_ge {w : Nat} (hw : 32 ≤ w) :
    (2147483648 : Int) ≤ 2 ^ (w - 1) := by
  have h : (2 : Int) ^ 31 ≤ 2 ^ (w - 1) :=
    pow_le_pow_right₀ (by norm_num) (by omega)
  norm_num at h
  exact h

theorem wrapWord_eq_self {w : Nat} {x : Int} (hw : 1 ≤ w)
    (hx : FitsWord w x) : wrapWord w x = x := by
  obtain ⟨h1, h2⟩ := hx
  unfold wrapWord
  rw [two_pow_word hw]
  generalize (2 : Int) ^ (w - 1) = H at h1 h2
  rw [Int.emod_eq_of_lt (by omega) (by omega)]
  omega

theorem wrapWord_small {w : Nat} {x : Int} (hw : 32 ≤ w)
    (h1 : -2147483648 ≤ x) (h2 : x < 2147483648) : wrapWord w x = x := by
  have h := two_pow_half_ge hw
  exact wrapWord_eq_self (by omega) ⟨by omega, by omega⟩

theorem wrapWord_add_left (w : Nat) (a b : Int) :
    wrapWord w (wrapWord w a + b) = wrapWord w (a + b) := by
  unfold wrapWord
  generalize (2 : Int) ^ (w - 1) = H
  generalize (2 : Int) ^ w = M
  have e : (a + H) % M - H + b + H = (a + H) % M + b := by ring
  rw [e, Int.emod_add_emod]
  have e2 : a + H + b = a + b + H := by ring
  rw [e2]

namespace Token

theorem IsClassifying_eq_false (p : Int) : IsClassifying p = false := by
  simp only [IsClassifying, ClassifyingTokenPositions.kPrivate,
    ClassifyingTokenPositions.kLast, Bool.and_eq_false_iff, decide_eq_false_iff_not]
  omega

theorem IsSynthetic_iff (p : Int) :
    IsSynthetic p = true ↔ p < ClassifyingTokenPositions.kLast := by
  unfold IsSynthetic kMinSourcePos ClassifyingTokenPositions.kLast
  split_ifs <;> simp <;> omega

theorem IsNoSource_iff (p : Int) : IsNoSource p = true ↔ p = kNoSourcePos := by
  simp [IsNoSource]

theorem IsReal_iff (p : Int) : IsReal p = true ↔ kMinSourcePos ≤ p := by
  simp [IsReal]

theorem IsSynthetic_eq_false_iff (p : Int) :
    IsSynthetic p = false ↔ ClassifyingTokenPositions.kLast ≤ p := by
  rw [← Bool.not_eq_true, IsSynthetic_iff]
  omega

theorem ASSERT_true (debug : Bool) : ASSERT debug true = some () := by
  cases debug <;> rfl

/-- On a real position whose encoding fits the word, ToSynthetic passes its
three assertions and returns (kLast - 1) - token_pos. -/
theorem ToSynthetic_real {w : Nat} (debug : Bool) {p : Int} (hw : 32 ≤ w)
    (h0 : kMinSourcePos ≤ p)
    (hf : FitsWord w (ClassifyingTokenPositions.kLast - 1 - p)) :
    ToSynthetic w debug p = some (ClassifyingTokenPositions.kLast - 1 - p) := by
  have hc : wrapWord w (ClassifyingTokenPositions.kLast - 1) =
      ClassifyingTokenPositions.kLast - 1 :=
    wrapWord_small hw (by decide) (by decide)
  have hv : wrapWord w (ClassifyingTokenPositions.kLast - 1 - p) =
      ClassifyingTokenPositions.kLast - 1 - p :=
    wrapWord_eq_self (by omega) hf
  have hns : IsNoSource p = false := by
    rw [← Bool.not_eq_true, IsNoSource_iff]
    unfold kMinSourcePos at h0
    unfold kNoSourcePos
    omega
  have hsy : IsSynthetic p = false := by
    rw [IsSynthetic_eq_false_iff]
    unfold kMinSourcePos at h0
    unfold ClassifyingTokenPositions.kLast
    omega
  have hlt : ClassifyingTokenPositions.kLast - 1 - p <
      ClassifyingTokenPositions.kLast := by
    unfold kMinSourcePos at h0
    omega
  have hsv : IsSynthetic (ClassifyingTokenPositions.kLast - 1 - p) = true :=
    (IsSynthetic_iff _).2 hlt
  simp [ToSynthetic, IsClassifying_eq_false, hns, hsy, hc, hv, hsv, hlt,
    ASSERT_true]

/-- On a synthetic position held by the word, FromSynthetic passes its two
assertions and returns -token_pos + (kLast - 1). -/
theorem FromSynthetic_synthetic {w : Nat} (debug : Bool) {s : Int}
    (hw : 32 ≤ w) (hs : s < ClassifyingTokenPositions.kLast)
    (hf : FitsWord w s) :
    FromSynthetic w debug s =
      some (-s + (ClassifyingTokenPositions.kLast - 1)) := by
  have hH := two_pow_half_ge hw
  have hc : wrapWord w (ClassifyingTokenPositions.kLast - 1) =
      ClassifyingTokenPositions.kLast - 1 :=
    wrapWord_small hw (by decide) (by decide)
  have hv : wrapWord w (wrapWord w (-s) +
      (ClassifyingTokenPositions.kLast - 1)) =
      -s + (ClassifyingTokenPositions.kLast - 1) := by
    rw [wrapWord_add_left]
    apply wrapWord_eq_self (by omega)
    obtain ⟨h1, h2⟩ := hf
    unfold ClassifyingTokenPositions.kLast at hs ⊢
    constructor <;> omega
  have hns : IsNoSource s = false := by
    rw [← Bool.not_eq_true, IsNoSource_iff]
    unfold ClassifyingTokenPositions.kLast at hs
    unfold kNoSourcePos
    omega
  have hsy : IsSynthetic s = true := (IsSynthetic_iff _).2 hs
  have hsv : IsSynthetic (-s + (ClassifyingTokenPositions.kLast - 1)) =
      false := by
    rw [IsSynthetic_eq_false_iff]
    unfold ClassifyingTokenPositions.kLast at hs ⊢
    omega
  simp [FromSynthetic, IsClassifying_eq_false, hns, hsy, hc, hv, hsv,
    ASSERT_true]

/-- The named classifying positions are exactly the integers from kLast up
to kPrivate. -/
theorem mem_values_iff (c : Int) :
    c ∈ ClassifyingTokenPositions.values ↔
      (ClassifyingTokenPositions.kLast ≤ c ∧
        c ≤ ClassifyingTokenPositions.kPrivate) := by
  simp only [ClassifyingTokenPositions.values, ClassifyingTokenPositions.kPrivate,
    ClassifyingTokenPositions.kBox, ClassifyingTokenPositions.kParallelMove,
    ClassifyingTokenPositions.kTempMove, ClassifyingTokenPositions.kConstant,
    ClassifyingTokenPositions.kPushArgument,
    ClassifyingTokenPositions.kControlFlow, ClassifyingTokenPositions.kContext,
    ClassifyingTokenPositions.kMethodExtractor,
    ClassifyingTokenPositions.kLast, List.mem_cons, List.not_mem_nil, or_false]
  omega

/-! ## The classification predicates -/

/-- Claim C1, at the failing input: the classifying position kPrivate = -2
lies in the legal range from kSmiMin32 to kMaxSourcePos, and none of
IsClassifying, IsNoSource, IsSynthetic, IsReal holds of it, so it is not true
that exactly one of them does. -/
theorem kPrivate_in_no_class :
    kSmiMin32 ≤ ClassifyingTokenPositions.kPrivate ∧
    ClassifyingTokenPositions.kPrivate ≤ kMaxSourcePos ∧
    IsClassifying ClassifyingTokenPositions.kPrivate = false ∧
    IsNoSource ClassifyingTokenPositions.kPrivate = false ∧
    IsSynthetic ClassifyingTokenPositions.kPrivate = false ∧
    IsReal ClassifyingTokenPositions.kPrivate = false := by
  decide

/-- Claim C2, at the failing inputs: IsClassifying is false of each of the ten
named classifying positions kPrivate, kBox, ..., kLast, although each lies
between kLast and kPrivate. -/
theorem IsClassifying_false_on_named :
    ClassifyingTokenPositions.values.map IsClassifying =
      List.replicate 10 false ∧
    ClassifyingTokenPositions.values.map
      (fun c => decide (ClassifyingTokenPositions.kLast ≤ c ∧
        c ≤ ClassifyingTokenPositions.kPrivate)) =
      List.replicate 10 true := by
  decide

/-- Claim C7 fails at the no-position sentinel: kNoSourcePos = -1 is strictly
less than kMinSourcePos and lies outside the classifying range (read either as
the value range from kLast to kPrivate or as the predicate IsClassifying), yet
IsSynthetic is false of it. -/
theorem IsSynthetic_noSource_counterexample :
    ¬ (∀ p : Int, IsSynthetic p = true ↔
        (p < kMinSourcePos ∧
          ¬ (ClassifyingTokenPositions.kLast ≤ p ∧
            p ≤ ClassifyingTokenPositions.kPrivate))) ∧
    ¬ (∀ p : Int, IsSynthetic p = true ↔
        (p < kMinSourcePos ∧ IsClassifying p = false)) := by
  constructor
  · intro h
    have h1 := (h kNoSourcePos).2 (by decide)
    revert h1
    decide
  · intro h
    have h1 := (h kNoSourcePos).2 (by decide)
    revert h1
    decide

/-- Claim C7 as amended: IsSynthetic holds of p exactly when p is strictly less
than kMinSourcePos, p is not in the classifying range from kLast to kPrivate,
and p is not the no-position sentinel kNoSourcePos. -/
theorem IsSynthetic_iff_below_classifying (p : Int) :
    IsSynthetic p = true ↔
      (p < kMinSourcePos ∧
        ¬ (ClassifyingTokenPositions.kLast ≤ p ∧
          p ≤ ClassifyingTokenPositions.kPrivate) ∧
        p ≠ kNoSourcePos) := by
  rw [IsSynthetic_iff]
  unfold kMinSourcePos kNoSourcePos ClassifyingTokenPositions.kLast
    ClassifyingTokenPositions.kPrivate
  omega

/-- Claim C8: the four position classes are pairwise disjoint at every integer
p, and a named classifying position c satisfies none of IsNoSource,
IsSynthetic, IsReal. -/
theorem classes_pairwise_disjoint (p c : Int)
    (hc : c ∈ ClassifyingTokenPositions.values) :
    (¬ (IsClassifying p = true ∧ IsNoSource p = true) ∧
     ¬ (IsClassifying p = true ∧ IsSynthetic p = true) ∧
     ¬ (IsClassifying p = true ∧ IsReal p = true) ∧
     ¬ (IsNoSource p = true ∧ IsSynthetic p = true) ∧
     ¬ (IsNoSource p = true ∧ IsReal p = true) ∧
     ¬ (IsSynthetic p = true ∧ IsReal p = true)) ∧
    (IsNoSource c = false ∧ IsSynthetic c = false ∧ IsReal c = false) := by
  rw [mem_values_iff] at hc
  simp only [IsClassifying_eq_false, IsSynthetic_iff, IsNoSource_iff,
    IsReal_iff, ← Bool.not_eq_true]
  unfold kMinSourcePos kNoSourcePos
  unfold ClassifyingTokenPositions.kLast ClassifyingTokenPositions.kPrivate at *
  simp only [Bool.false_eq_true, false_and, not_false_eq_true, true_and]
  omega

/-- Witness of claim C8 at p = kNoSourcePos and c = kBox. -/
theorem classes_pairwise_disjoint_witness :
    ClassifyingTokenPositions.kBox ∈ ClassifyingTokenPositions.values ∧
    ¬ (IsNoSource kNoSourcePos = true ∧ IsSynthetic kNoSourcePos = true) ∧
    IsReal ClassifyingTokenPositions.kBox = false :=
  ⟨by decide,
   (classes_pairwise_disjoint kNoSourcePos ClassifyingTokenPositions.kBox
      (by decide)).1.2.2.2.1,
   (classes_pairwise_disjoint kNoSourcePos ClassifyingTokenPositions.kBox
      (by decide)).2.2.2⟩

/-- Claim C9 fails as stated: the no-position sentinel is not less than
every synthetic position (it is greater than all of them; -12 is synthetic). -/
theorem noSource_not_below_synthetic :
    ¬ (∀ s : Int, IsSynthetic s = true → kNoSourcePos < s) := by
  intro h
  have h1 := h (-12) (by decide)
  revert h1
  decide

/-- Claim C9 as amended: the regions are ordered synthetic, classifying,
no-position, real.  Every synthetic position s is less than every named
classifying position c, every named classifying position is less than
kNoSourcePos, kNoSourcePos is less than every real position r, and every
synthetic position is less than every real position. -/
theorem regions_ordered (s c r : Int) (hs : IsSynthetic s = true)
    (hc : c ∈ ClassifyingTokenPositions.values) (hr : IsReal r = true) :
    s < c ∧ c < kNoSourcePos ∧ kNoSourcePos < r ∧ s < r := by
  rw [IsSynthetic_iff] at hs
  rw [mem_values_iff] at hc
  rw [IsReal_iff] at hr
  unfold kMinSourcePos at hr
  unfold kNoSourcePos
  unfold ClassifyingTokenPositions.kLast at hs hc
  unfold ClassifyingTokenPositions.kPrivate at hc
  omega

/-- Witness of the amended claim C9 at the adjacent values s = -12,
c = kLast = -11 and r = kMinSourcePos = 0. -/
theorem regions_ordered_witness :
    (IsSynthetic (-12) = true ∧
      ClassifyingTokenPositions.kLast ∈ ClassifyingTokenPositions.values ∧
      IsReal kMinSourcePos = true) ∧
    ((-12 : Int) < ClassifyingTokenPositions.kLast ∧
      ClassifyingTokenPositions.kLast < kNoSourcePos ∧
      kNoSourcePos < kMinSourcePos ∧ (-12 : Int) < kMinSourcePos) :=
  ⟨by decide,
   regions_ordered (-12) ClassifyingTokenPositions.kLast kMinSourcePos
     (by decide) (by decide) (by decide)⟩

/-- Claim C10: IsSourcePosition holds of p exactly when p is real, the
no-position sentinel, or synthetic (that is, when 0 ≤ p, p = -1 or p < kLast);
it is false of every named classifying position c; and IsDebugPause holds of p
exactly when p ≥ 0. -/
theorem IsSourcePosition_iff (p c : Int)
    (hc : c ∈ ClassifyingTokenPositions.values) :
    (IsSourcePosition p = true ↔
      (IsReal p = true ∨ IsNoSource p = true ∨ IsSynthetic p = true)) ∧
    (IsSourcePosition p = true ↔
      (0 ≤ p ∨ p = -1 ∨ p < ClassifyingTokenPositions.kLast)) ∧
    IsSourcePosition c = false ∧
    (IsDebugPause p = true ↔ 0 ≤ p) := by
  have e : ∀ q : Int, IsSourcePosition q = true ↔
      (IsReal q = true ∨ IsNoSource q = true ∨ IsSynthetic q = true) := by
    intro q
    simp only [IsSourcePosition, Bool.or_eq_true, or_assoc]
  refine ⟨e p, ?_, ?_, ?_⟩
  · rw [e, IsReal_iff, IsNoSource_iff, IsSynthetic_iff]
    unfold kMinSourcePos kNoSourcePos
    rfl
  · rw [mem_values_iff] at hc
    rw [← Bool.not_eq_true, e, IsReal_iff, IsNoSource_iff, IsSynthetic_iff]
    unfold kMinSourcePos kNoSourcePos
    unfold ClassifyingTokenPositions.kLast at hc ⊢
    unfold ClassifyingTokenPositions.kPrivate at hc
    omega
  · unfold IsDebugPause
    rw [IsReal_iff]
    unfold kMinSourcePos
    rfl

/-- Witness of claim C10 at p = kMaxSourcePos and c = kMethodExtractor. -/
theorem IsSourcePosition_iff_witness :
    ClassifyingTokenPositions.kMethodExtractor ∈
      ClassifyingTokenPositions.values ∧
    IsSourcePosition ClassifyingTokenPositions.kMethodExtractor = false ∧
    (IsDebugPause kMaxSourcePos = true ↔ 0 ≤ kMaxSourcePos) :=
  ⟨by decide,
   (IsSourcePosition_iff kMaxSourcePos
      ClassifyingTokenPositions.kMethodExtractor (by decide)).2.2.1,
   (IsSourcePosition_iff kMaxSourcePos
      ClassifyingTokenPositions.kMethodExtractor (by decide)).2.2.2⟩

/-! ## ToSynthetic and FromSynthetic -/

/-- Claim C3: for every real position p with kMinSourcePos ≤ p ≤ kMaxSourcePos,
on a platform whose intptr_t has at least 32 bits and in either build,
ToSynthetic followed by FromSynthetic returns p (no assertion fails). -/
theorem FromSynthetic_ToSynthetic_real (w : Nat) (debug : Bool) (p : Int)
    (hw : 32 ≤ w) (h0 : kMinSourcePos ≤ p) (h1 : p ≤ kMaxSourcePos) :
    (ToSynthetic w debug p).bind (FromSynthetic w debug) = some p := by
  have hH := two_pow_half_ge hw
  have hk : kMaxSourcePos = 1073741810 := by decide
  have hp0 : 0 ≤ p := h0
  have hf : FitsWord w (ClassifyingTokenPositions.kLast - 1 - p) := by
    unfold ClassifyingTokenPositions.kLast
    constructor <;> omega
  rw [ToSynthetic_real debug hw h0 hf, Option.some_bind,
    FromSynthetic_synthetic debug hw (by omega) hf]
  congr 1
  omega

/-- Witness of claim C3 on a 32-bit word, in the debug build, at the largest
real position. -/
theorem FromSynthetic_ToSynthetic_real_witness :
    (32 ≤ 32 ∧ kMinSourcePos ≤ kMaxSourcePos ∧ kMaxSourcePos ≤ kMaxSourcePos) ∧
    (ToSynthetic 32 true kMaxSourcePos).bind (FromSynthetic 32 true) =
      some kMaxSourcePos :=
  ⟨by decide,
   FromSynthetic_ToSynthetic_real 32 true kMaxSourcePos (by decide) (by decide)
     (by decide)⟩

/-- Claim C4: for every synthetic position s held by an intptr_t of at least
32 bits, in either build, FromSynthetic followed by ToSynthetic returns s (no
assertion fails). -/
theorem ToSynthetic_FromSynthetic_synthetic (w : Nat) (debug : Bool) (s : Int)
    (hw : 32 ≤ w) (hf : FitsWord w s) (hs : IsSynthetic s = true) :
    (FromSynthetic w debug s).bind (ToSynthetic w debug) = some s := by
  have hH := two_pow_half_ge hw
  have hlt : s < ClassifyingTokenPositions.kLast := (IsSynthetic_iff s).1 hs
  have e : ClassifyingTokenPositions.kLast - 1 -
      (-s + (ClassifyingTokenPositions.kLast - 1)) = s := by ring
  rw [FromSynthetic_synthetic debug hw hlt hf, Option.some_bind,
    ToSynthetic_real debug hw
      (by unfold kMinSourcePos; unfold ClassifyingTokenPositions.kLast at hlt ⊢;
          omega)
      (by rw [e]; exact hf), e]

/-- Witness of claim C4 on a 64-bit word, in the debug build, at the smallest
value of the word. -/
theorem ToSynthetic_FromSynthetic_synthetic_witness :
    (32 ≤ 64 ∧ FitsWord 64 (-9223372036854775808) ∧
      IsSynthetic (-9223372036854775808) = true) ∧
    (FromSynthetic 64 true (-9223372036854775808)).bind (ToSynthetic 64 true) =
      some (-9223372036854775808) :=
  ⟨by decide,
   ToSynthetic_FromSynthetic_synthetic 64 true (-9223372036854775808)
     (by decide) (by decide) (by decide)⟩

/-- Claim C5, at the failing inputs: ToSynthetic does not return a named
classifying position unchanged.  In the debug build the assertion
IsSynthetic(value) fails on each of the ten (on 32-bit and 64-bit words); with
assertions compiled out kPrivate = -2 is mapped to -10, and the ten named
positions are mapped to -10, -9, ..., -1.  FromSynthetic does return kPrivate
unchanged, and both functions return kNoSourcePos unchanged. -/
theorem ToSynthetic_classifying_changed :
    ClassifyingTokenPositions.values.map (ToSynthetic 64 true) =
      List.replicate 10 none ∧
    ClassifyingTokenPositions.values.map (ToSynthetic 32 true) =
      List.replicate 10 none ∧
    ToSynthetic 64 false ClassifyingTokenPositions.kPrivate = some (-10) ∧
    ToSynthetic 32 false ClassifyingTokenPositions.kPrivate = some (-10) ∧
    ClassifyingTokenPositions.values.map (ToSynthetic 64 false) =
      [some (-10), some (-9), some (-8), some (-7), some (-6), some (-5),
       some (-4), some (-3), some (-2), some (-1)] ∧
    FromSynthetic 64 true ClassifyingTokenPositions.kPrivate =
      some ClassifyingTokenPositions.kPrivate ∧
    ToSynthetic 64 true kNoSourcePos = some kNoSourcePos ∧
    FromSynthetic 64 true kNoSourcePos = some kNoSourcePos := by
  decide

/-- Claim C6: for every real position p with kMinSourcePos ≤ p ≤ kMaxSourcePos,
on a platform whose intptr_t has at least 32 bits and in either build,
ToSynthetic returns (kLast - 1) - p; that value is synthetic, is strictly
below kLast, is none of the named classifying positions, is not kNoSourcePos,
and fits a signed 32-bit integer. -/
theorem ToSynthetic_real_value (w : Nat) (debug : Bool) (p : Int)
    (hw : 32 ≤ w) (h0 : kMinSourcePos ≤ p) (h1 : p ≤ kMaxSourcePos) :
    ToSynthetic w debug p = some (ClassifyingTokenPositions.kLast - 1 - p) ∧
    IsSynthetic (ClassifyingTokenPositions.kLast - 1 - p) = true ∧
    ClassifyingTokenPositions.kLast - 1 - p < ClassifyingTokenPositions.kLast ∧
    ClassifyingTokenPositions.kLast - 1 - p ∉ ClassifyingTokenPositions.values ∧
    ClassifyingTokenPositions.kLast - 1 - p ≠ kNoSourcePos ∧
    FitsWord 32 (ClassifyingTokenPositions.kLast - 1 - p) := by
  have hH := two_pow_half_ge hw
  have hk : kMaxSourcePos = 1073741810 := by decide
  have hp0 : 0 ≤ p := h0
  have hlt : ClassifyingTokenPositions.kLast - 1 - p <
      ClassifyingTokenPositions.kLast := by omega
  have hf : FitsWord w (ClassifyingTokenPositions.kLast - 1 - p) := by
    unfold ClassifyingTokenPositions.kLast
    constructor <;> omega
  refine ⟨ToSynthetic_real debug hw h0 hf, (IsSynthetic_iff _).2 hlt, hlt,
    ?_, ?_, ?_⟩
  · rw [mem_values_iff]
    omega
  · unfold kNoSourcePos
    unfold ClassifyingTokenPositions.kLast
    omega
  · unfold FitsWord
    unfold ClassifyingTokenPositions.kLast
    norm_num
    constructor <;> omega

/-- Witness of claim C6 on a 64-bit word, in the debug build, at the largest
real position, whose encoding is kSmiMin32 + 2. -/
theorem ToSynthetic_real_value_witness :
    (32 ≤ 64 ∧ kMinSourcePos ≤ kMaxSourcePos ∧ kMaxSourcePos ≤ kMaxSourcePos) ∧
    ToSynthetic 64 true kMaxSourcePos = some (kSmiMin32 + 2) ∧
    IsSynthetic (ClassifyingTokenPositions.kLast - 1 - kMaxSourcePos) = true :=
  ⟨by decide,
   (ToSynthetic_real_value 64 true kMaxSourcePos (by decide) (by decide)
     (by decide)).1,
   (ToSynthetic_real_value 64 true kMaxSourcePos (by decide) (by decide)
     (by decide)).2.1⟩

/-! ## The token catalog -/

open Kind

set_option maxRecDepth 100000

/-- The catalog lists the kinds in the order of the enumeration: the entry at
index i is the kind of ordinal i, and kNumTokens is the number of entries. -/
theorem catalog_ordinals :
    (DART_TOKEN_LIST ++ DART_KEYWORD_LIST).map (fun e => e.1.ord) =
      List.range kNumTokens.ord := by
  decide

theorem tok_str_length : tok_str_.length = 120 := by
  decide

theorem pairwise_getElem_opt {α : Type} {R : α → α → Prop} {l : List α}
    (h : l.Pairwise R) {i j : Nat} (hij : i < j) {x y : α}
    (hx : l[i]? = some x) (hy : l[j]? = some y) : R x y := by
  rw [List.pairwise_iff_getElem] at h
  obtain ⟨hi, rfl⟩ := List.getElem?_eq_some.1 hx
  obtain ⟨hj, rfl⟩ := List.getElem?_eq_some.1 hy
  exact h i j hi hj hij

/-- Below kNumTokens the assertion of Str holds and Str reads the table. -/
theorem Str_of_lt (debug : Bool) {k : Kind} (h : k < kNumTokens) :
    Str debug k = tok_str_[k.ord]? := by
  cases debug <;> simp [Str, ASSERT, h]

/-- The spellings of the keyword block of the table, from the ordinal of
kFirstKeyword on, are pairwise increasing in the lexicographic order of their
characters. -/
theorem keyword_block_pairwise :
    List.Pairwise (fun s t : String => s.toList < t.toList)
      (tok_str_.drop kFirstKeyword.ord) := by
  decide

/-- A kind with a spelling that the precedence table does not list, other
than kCASCADE, kISNOT and kASSERT, has precedence 0. -/
theorem Precedence_unlisted_aux (debug : Bool) (k : Kind)
    (hs : (Str debug k).isSome = true)
    (ht : (Str debug k).bind tableRank = none)
    (h1 : k ≠ kCASCADE) (h2 : k ≠ kISNOT) (h3 : k ≠ kASSERT) :
    Precedence debug k = some 0 := by
  revert hs ht h1 h2 h3
  cases debug <;> cases k <;> decide

theorem FromSynthetic_not_synthetic (w : Nat) (debug : Bool) {p : Int}
    (h : IsSynthetic p = false) : FromSynthetic w debug p = some p := by
  simp [FromSynthetic, h]

theorem ToSynthetic_synthetic (w : Nat) (debug : Bool) {p : Int}
    (h : IsSynthetic p = true) : ToSynthetic w debug p = some p := by
  simp [ToSynthetic, h]

theorem ToSynthetic_noSource (w : Nat) (debug : Bool) {p : Int}
    (h : IsNoSource p = true) : ToSynthetic w debug p = some p := by
  simp [ToSynthetic, h]

theorem FromSynthetic_noSource (w : Nat) (debug : Bool) {p : Int}
    (h : IsNoSource p = true) : FromSynthetic w debug p = some p := by
  simp [FromSynthetic, h]

/-- The kind of ordinal k.ord, read back from the catalog, is k. -/
theorem kind_at_ord (k : Kind) :
    ((DART_TOKEN_LIST ++ DART_KEYWORD_LIST).map (fun e => e.1) ++
      [kNumTokens])[k.ord]? = some k := by
  cases k <;> decide

theorem ord_injective {a b : Kind} (h : a.ord = b.ord) : a = b := by
  have ha := kind_at_ord a
  rw [h, kind_at_ord b] at ha
  exact (Option.some.inj ha).symm

/-- A non-empty spelling of a kind other than kINTERPOL_END first occurs in
the spelling table at the ordinal of that kind. -/
theorem spelling_first_index_aux (debug : Bool) (k : Kind) :
    (Str debug k).all (fun s => decide (s = "") || decide (k = kINTERPOL_END) ||
      decide (tok_str_.indexOf s = k.ord)) = true := by
  cases debug <;> cases k <;> decide

theorem spelling_first_index (debug : Bool) {k : Kind} {s : String}
    (hs : Str debug k = some s) (hne : s ≠ "") (hk : k ≠ kINTERPOL_END) :
    tok_str_.indexOf s = k.ord := by
  have h := spelling_first_index_aux debug k
  rw [hs] at h
  simpa [Option.all, hne, hk] using h

theorem Str_kINTERPOL_END (debug : Bool) :
    Str debug kINTERPOL_END = some "\x7d" := by
  cases debug <;> decide

/-- With assertions compiled out, on a position from kLast up to
kMaxSourcePos other than kNoSourcePos, ToSynthetic returns
(kLast - 1) - token_pos. -/
theorem ToSynthetic_release {w : Nat} {p : Int} (hw : 32 ≤ w)
    (h0 : ClassifyingTokenPositions.kLast ≤ p) (h1 : p ≤ kMaxSourcePos)
    (hn : p ≠ kNoSourcePos) :
    ToSynthetic w false p =
      some (ClassifyingTokenPositions.kLast - 1 - p) := by
  have hk : kMaxSourcePos = 1073741810 := by decide
  have hc : wrapWord w (ClassifyingTokenPositions.kLast - 1) =
      ClassifyingTokenPositions.kLast - 1 :=
    wrapWord_small hw (by decide) (by decide)
  have hv : wrapWord w (ClassifyingTokenPositions.kLast - 1 - p) =
      ClassifyingTokenPositions.kLast - 1 - p := by
    apply wrapWord_small hw
    · unfold ClassifyingTokenPositions.kLast
      omega
    · unfold ClassifyingTokenPositions.kLast at h0 ⊢
      omega
  have hns : IsNoSource p = false := by
    rw [← Bool.not_eq_true, IsNoSource_iff]
    exact hn
  have hsy : IsSynthetic p = false := (IsSynthetic_eq_false_iff p).2 h0
  simp [ToSynthetic, IsClassifying_eq_false, hns, hsy, hc, hv, ASSERT]

/-- Claim C11 fails as stated: kMaxSourcePos is not the largest integer m such
that m plus the size of the classifying band plus 2 fits a signed 32-bit
integer, whether the band is counted as its ten positions or as -kLast = 11:
larger values of m satisfy the bound as well. -/
theorem kMaxSourcePos_not_largest_int32 :
    ¬ (∀ m : Int,
        m + (ClassifyingTokenPositions.values.length : Int) + 2 ≤ 2 ^ 31 - 1 →
          m ≤ kMaxSourcePos) ∧
    ¬ (∀ m : Int,
        m + (-ClassifyingTokenPositions.kLast) + 2 ≤ 2 ^ 31 - 1 →
          m ≤ kMaxSourcePos) := by
  constructor
  · intro h
    have h1 := h (kMaxSourcePos + 1) (by decide)
    revert h1
    decide
  · intro h
    have h1 := h (kMaxSourcePos + 1) (by decide)
    revert h1
    decide

/-- Claim C11 as amended: kMaxSourcePos = 2^30 - 14 is the largest integer m
such that m + (-kLast) + 2 fits a 31-bit small integer (is at most kSmiMax32),
where -kLast = 11 counts the ten classifying positions and kNoSourcePos; that
sum, and the sum with the ten classifying positions alone, also fit a signed
32-bit integer. -/
theorem kMaxSourcePos_largest_smi (m : Int) :
    (m + (-ClassifyingTokenPositions.kLast) + 2 ≤ kSmiMax32 ↔
      m ≤ kMaxSourcePos) ∧
    kMaxSourcePos = 2 ^ 30 - 14 ∧
    -ClassifyingTokenPositions.kLast =
      (ClassifyingTokenPositions.values.length : Int) + 1 ∧
    kMaxSourcePos + (-ClassifyingTokenPositions.kLast) + 2 ≤ 2 ^ 31 - 1 ∧
    kMaxSourcePos + (ClassifyingTokenPositions.values.length : Int) + 2 ≤
      2 ^ 31 - 1 := by
  refine ⟨?_, by decide, by decide, by decide, by decide⟩
  have hk : kMaxSourcePos = 1073741810 := by decide
  have hs : kSmiMax32 = 1073741823 := by decide
  rw [hk, hs]
  unfold ClassifyingTokenPositions.kLast
  omega

/-- Claim C12: NegateComparison exchanges kEQ and kNE, kLT and kGTE, kGT and
kLTE, kEQ_STRICT and kNE_STRICT, kIS and kISNOT; and for every comparison kind
op (equality, relational or type test) it returns a kind different from op
whose negation is op again. -/
theorem NegateComparison_involution (op : Kind)
    (h : IsEqualityOperator op = true ∨ IsRelationalOperator op = true ∨
      IsTypeTestOperator op = true) :
    (NegateComparison kEQ = some kNE ∧ NegateComparison kNE = some kEQ ∧
     NegateComparison kLT = some kGTE ∧ NegateComparison kGTE = some kLT ∧
     NegateComparison kGT = some kLTE ∧ NegateComparison kLTE = some kGT ∧
     NegateComparison kEQ_STRICT = some kNE_STRICT ∧
     NegateComparison kNE_STRICT = some kEQ_STRICT ∧
     NegateComparison kIS = some kISNOT ∧
     NegateComparison kISNOT = some kIS) ∧
    (NegateComparison op).bind NegateComparison = some op ∧
    NegateComparison op ≠ some op := by
  revert h
  cases op <;> decide

/-- Witness of claim C12 at op = kLT. -/
theorem NegateComparison_involution_witness :
    IsRelationalOperator kLT = true ∧
    (NegateComparison kLT).bind NegateComparison = some kLT ∧
    NegateComparison kLT ≠ some kLT :=
  ⟨by decide, (NegateComparison_involution kLT (by decide)).2⟩

/-- Claim C13: for every kind op, NegateComparison fails (reaches UNREACHABLE)
exactly when op is not a comparison kind, that is, when none of
IsEqualityOperator, IsRelationalOperator, IsTypeTestOperator holds of it; it
fails for kAND. -/
theorem NegateComparison_fails_iff (op : Kind) :
    (NegateComparison op = none ↔
      ¬ (IsEqualityOperator op = true ∨ IsRelationalOperator op = true ∨
        IsTypeTestOperator op = true)) ∧
    NegateComparison kAND = none := by
  cases op <;> decide

/-- Claim C14 fails at kNE: the kind spelled != is a non-strict equality
operator, yet CanBeOverloaded is false of it (in both builds), so
CanBeOverloaded is not true of every kind whose spelling is in the claimed
set. -/
theorem CanBeOverloaded_kNE_counterexample :
    ¬ (∀ k : Kind, CanBeOverloaded true k = some true ↔
        ∃ s ∈ ["<", ">", "<=", ">=", "==", "!=", "+", "-", "*", "/", "~/", "%",
               "|", "^", "&", "~", "<<", ">>", "[]", "[]="],
          Str true k = some s) ∧
    Str true kNE = some "!=" ∧
    CanBeOverloaded true kNE = some false ∧
    CanBeOverloaded false kNE = some false := by
  refine ⟨?_, by decide, by decide, by decide⟩
  intro h
  have h1 := (h kNE).2 (by decide)
  revert h1
  decide

/-- Claim C14 as amended: in either build, CanBeOverloaded is true of a kind k
exactly when k is a relational operator (< > <= >=), the equality operator ==,
an arithmetic operator (+ - * / ~/ %), a bitwise operator (| ^ & ~), a shift
operator (<< >>), or one of the two index operators ([] and []=); it is true
of kINDEX and false of kASSIGN. -/
theorem CanBeOverloaded_iff (debug : Bool) (k : Kind) :
    (CanBeOverloaded debug k = some true ↔
      ∃ s ∈ ["<", ">", "<=", ">=", "==", "+", "-", "*", "/", "~/", "%",
             "|", "^", "&", "~", "<<", ">>", "[]", "[]="],
        Str debug k = some s) ∧
    CanBeOverloaded debug kINDEX = some true ∧
    CanBeOverloaded debug kASSIGN = some false := by
  cases debug <;> cases k <;> decide

/-- Claim C15: IsAssignmentOperator holds of a kind k exactly when the
spelling of k is one of = |= ^= &= <<= >>= += -= *= ~/= /= %= ??= ; the
ordinal range from kASSIGN to kASSIGN_COND has 13 kinds, whose spellings, in
order, are these. -/
theorem IsAssignmentOperator_iff (debug : Bool) (k : Kind) :
    (IsAssignmentOperator k = true ↔
      ∃ s ∈ ["=", "|=", "^=", "&=", "<<=", ">>=", "+=", "-=", "*=", "~/=",
             "/=", "%=", "??="],
        Str debug k = some s) ∧
    kASSIGN_COND.ord - kASSIGN.ord + 1 = 13 ∧
    (tok_str_.drop kASSIGN.ord).take 13 =
      ["=", "|=", "^=", "&=", "<<=", ">>=", "+=", "-=", "*=", "~/=",
       "/=", "%=", "??="] := by
  cases debug <;> cases k <;> decide

/-- Claim C16: IsRelationalOperator holds of k exactly when k is spelled one
of < > <= >=, IsEqualityOperator exactly when k is spelled one of == != ===
!==; no kind is in both blocks; IsStrictEqualityOperator holds exactly of
kEQ_STRICT and kNE_STRICT, the kinds spelled === and !==, so it is false of
kEQ, true of kEQ_STRICT, and never holds where IsEqualityOperator fails. -/
theorem IsRelationalOperator_IsEqualityOperator_iff (debug : Bool) (k : Kind) :
    (IsRelationalOperator k = true ↔
      ∃ s ∈ ["<", ">", "<=", ">="], Str debug k = some s) ∧
    (IsEqualityOperator k = true ↔
      ∃ s ∈ ["==", "!=", "===", "!=="], Str debug k = some s) ∧
    ¬ (IsRelationalOperator k = true ∧ IsEqualityOperator k = true) ∧
    (IsStrictEqualityOperator k = true ↔ (k = kEQ_STRICT ∨ k = kNE_STRICT)) ∧
    (IsStrictEqualityOperator k = true ↔
      ∃ s ∈ ["===", "!=="], Str debug k = some s) ∧
    IsStrictEqualityOperator kEQ = false ∧
    IsStrictEqualityOperator kEQ_STRICT = true ∧
    ¬ (IsStrictEqualityOperator k = true ∧ IsEqualityOperator k = false) := by
  cases debug <;> cases k <;> decide

/-- Claim C17: the spellings of the keyword kinds, read in ordinal order from
kFirstKeyword (kABSTRACT) to kLastKeyword (kWITH), are strictly increasing:
for keyword kinds a < b, Str a is less than Str b, both in the order of
strings and in the lexicographic order of their character lists (for these
ASCII spellings, the byte-wise order). -/
theorem keyword_spellings_increasing (debug : Bool) (a b : Kind)
    (ha : kFirstKeyword ≤ a) (hab : a < b) (hb : b ≤ kLastKeyword) :
    ∃ sa sb : String, Str debug a = some sa ∧ Str debug b = some sb ∧
      sa < sb ∧ sa.toList < sb.toList := by
  have ha1 : kFirstKeyword.ord ≤ a.ord := ha
  have hab1 : a.ord < b.ord := hab
  have hb1 : b.ord ≤ kLastKeyword.ord := hb
  have hl : kLastKeyword.ord = 119 := by decide
  have hn : kNumTokens.ord = 120 := by decide
  have hlen := tok_str_length
  have hbn : b < kNumTokens := show b.ord < kNumTokens.ord by omega
  have han : a < kNumTokens := show a.ord < kNumTokens.ord by omega
  have hai : a.ord < tok_str_.length := by omega
  have hbi : b.ord < tok_str_.length := by omega
  have hsa : tok_str_[a.ord]? = some tok_str_[a.ord] :=
    List.getElem?_eq_getElem hai
  have hsb : tok_str_[b.ord]? = some tok_str_[b.ord] :=
    List.getElem?_eq_getElem hbi
  have hda : (tok_str_.drop kFirstKeyword.ord)[a.ord - kFirstKeyword.ord]? =
      some tok_str_[a.ord] := by
    rw [List.getElem?_drop, Nat.add_sub_cancel' ha1, hsa]
  have hdb : (tok_str_.drop kFirstKeyword.ord)[b.ord - kFirstKeyword.ord]? =
      some tok_str_[b.ord] := by
    rw [List.getElem?_drop, Nat.add_sub_cancel' (by omega), hsb]
  have hlt : (tok_str_[a.ord]).toList < (tok_str_[b.ord]).toList :=
    pairwise_getElem_opt keyword_block_pairwise (by omega) hda hdb
  refine ⟨tok_str_[a.ord], tok_str_[b.ord], ?_, ?_, ?_, hlt⟩
  · rw [Str_of_lt debug han, hsa]
  · rw [Str_of_lt debug hbn, hsb]
  · exact String.lt_iff_toList_lt.2 hlt

/-- Witness of claim C17 at the first and the last keyword: "abstract" is
less than "with". -/
theorem keyword_spellings_increasing_witness :
    (kFirstKeyword ≤ kABSTRACT ∧ kABSTRACT < kWITH ∧ kWITH ≤ kLastKeyword) ∧
    ∃ sa sb : String, Str true kABSTRACT = some sa ∧ Str true kWITH = some sb ∧
      sa < sb ∧ sa.toList < sb.toList :=
  ⟨by decide,
   keyword_spellings_increasing true kABSTRACT kWITH (by decide) (by decide)
     (by decide)⟩

/-- Claim C18, at the failing inputs: the precedence table lists the spellings
"is" and "as" in its row of rank 8, with the relational operators, but
Precedence returns 11 for kIS and for kAS (in both builds), while it returns
8 for kLT, kGT, kLTE and kGTE.  kAS and kIS are the only kinds whose
precedence differs from the rank the table gives to their spelling. -/
theorem Precedence_kIS_kAS_differ_from_table :
    Str true kIS = some "is" ∧ tableRank "is" = some 8 ∧
    Precedence true kIS = some 11 ∧ Precedence false kIS = some 11 ∧
    Str true kAS = some "as" ∧ tableRank "as" = some 8 ∧
    Precedence true kAS = some 11 ∧ Precedence false kAS = some 11 ∧
    [kLT, kGT, kLTE, kGTE].map (Precedence true) = List.replicate 4 (some 8) ∧
    ((DART_TOKEN_LIST ++ DART_KEYWORD_LIST).filter
      (fun e => (tableRank e.2.1).isSome &&
        (Precedence true e.1 != tableRank e.2.1))).map (fun e => e.1) =
      [kAS, kIS] := by
  decide

/-- Claim C19 fails at the cascade token: its spelling ".." is not in the
operator precedence table, yet its precedence is 2, not 0. -/
theorem Precedence_kCASCADE_counterexample :
    ¬ (∀ (k : Kind) (s : String), Str true k = some s → tableRank s = none →
        Precedence true k = some 0) ∧
    Str true kCASCADE = some ".." ∧ tableRank ".." = none ∧
    Precedence true kCASCADE = some 2 := by
  refine ⟨?_, by decide, by decide, by decide⟩
  intro h
  have h1 := h kCASCADE ".." (by decide) (by decide)
  revert h1
  decide

/-- Claim C19 as amended: in either build, every token kind k whose spelling
the operator precedence table does not list, other than the cascade token
kCASCADE, the internal negated type test kISNOT and the keyword kASSERT, has
precedence 0; the cascade token has precedence 2. -/
theorem Precedence_unlisted (debug : Bool) (k : Kind) (s : String)
    (hs : Str debug k = some s) (ht : tableRank s = none)
    (h1 : k ≠ kCASCADE) (h2 : k ≠ kISNOT) (h3 : k ≠ kASSERT) :
    Precedence debug k = some 0 ∧ Precedence debug kCASCADE = some 2 := by
  refine ⟨Precedence_unlisted_aux debug k ?_ ?_ h1 h2 h3, ?_⟩
  · rw [hs]
    rfl
  · rw [hs]
    exact ht
  · cases debug <;> decide

/-- Witness of the amended claim C19 at the kind kLPAREN, spelled "(". -/
theorem Precedence_unlisted_witness :
    (Str true kLPAREN = some "(" ∧ tableRank "(" = none ∧
      kLPAREN ≠ kCASCADE ∧ kLPAREN ≠ kISNOT ∧ kLPAREN ≠ kASSERT) ∧
    Precedence true kLPAREN = some 0 ∧ Precedence true kCASCADE = some 2 :=
  ⟨by decide,
   Precedence_unlisted true kLPAREN "(" (by decide) (by decide) (by decide)
     (by decide) (by decide)⟩

/-- Claim C20: on a platform whose intptr_t has at least 32 bits, for every
position p that is real with p ≤ kMaxSourcePos, the no-position sentinel, or
synthetic, neither ToSynthetic nor FromSynthetic reaches a failing ASSERT in
the debug build: both return a value. -/
theorem transforms_total (w : Nat) (p : Int) (hw : 32 ≤ w)
    (hf : FitsWord w p)
    (hp : (IsReal p = true ∧ p ≤ kMaxSourcePos) ∨ IsNoSource p = true ∨
      IsSynthetic p = true) :
    (ToSynthetic w true p).isSome = true ∧
    (FromSynthetic w true p).isSome = true := by
  have hH := two_pow_half_ge hw
  rcases hp with ⟨hr, hm⟩ | hn | hs
  · have h0 : kMinSourcePos ≤ p := (IsReal_iff p).1 hr
    have hk : kMaxSourcePos = 1073741810 := by decide
    have hp0 : 0 ≤ p := h0
    have hfit : FitsWord w (ClassifyingTokenPositions.kLast - 1 - p) := by
      unfold ClassifyingTokenPositions.kLast
      constructor <;> omega
    have hsy : IsSynthetic p = false := by
      rw [IsSynthetic_eq_false_iff]
      unfold ClassifyingTokenPositions.kLast
      omega
    rw [ToSynthetic_real true hw h0 hfit, FromSynthetic_not_synthetic w true hsy]
    exact ⟨rfl, rfl⟩
  · rw [ToSynthetic_noSource w true hn, FromSynthetic_noSource w true hn]
    exact ⟨rfl, rfl⟩
  · rw [ToSynthetic_synthetic w true hs,
      FromSynthetic_synthetic true hw ((IsSynthetic_iff p).1 hs) hf]
    exact ⟨rfl, rfl⟩

/-- Witness of claim C20 on a 32-bit word at the smallest value of the word,
a synthetic position. -/
theorem transforms_total_witness :
    (32 ≤ 32 ∧ FitsWord 32 (-2147483648) ∧
      IsSynthetic (-2147483648) = true) ∧
    (ToSynthetic 32 true (-2147483648)).isSome = true ∧
    (FromSynthetic 32 true (-2147483648)).isSome = true :=
  ⟨by decide,
   transforms_total 32 (-2147483648) (by decide) (by decide)
     (Or.inr (Or.inr (by decide)))⟩

/-- Claim C21 fails at the lower end of the documented range: kSmiMin32 is
synthetic and lies between kSmiMin32 and kLast - 1, but FromSynthetic maps it
to kMaxSourcePos + 2 (and kSmiMin32 + 1 to kMaxSourcePos + 1), above
kMaxSourcePos, on 32-bit and 64-bit words alike. -/
theorem FromSynthetic_kSmiMin32_counterexample :
    ¬ (∀ s : Int, kSmiMin32 ≤ s → s ≤ ClassifyingTokenPositions.kLast - 1 →
        ∃ v : Int, FromSynthetic 64 true s = some v ∧
          kMinSourcePos ≤ v ∧ v ≤ kMaxSourcePos) ∧
    IsSynthetic kSmiMin32 = true ∧
    FromSynthetic 64 true kSmiMin32 = some (kMaxSourcePos + 2) ∧
    FromSynthetic 32 true kSmiMin32 = some (kMaxSourcePos + 2) ∧
    FromSynthetic 64 true (kSmiMin32 + 1) = some (kMaxSourcePos + 1) := by
  refine ⟨?_, by decide, by decide, by decide, by decide⟩
  intro h
  obtain ⟨v, hv, _, h2⟩ := h kSmiMin32 (by decide) (by decide)
  have e : FromSynthetic 64 true kSmiMin32 = some (kMaxSourcePos + 2) := by
    decide
  rw [e] at hv
  have hv2 : kMaxSourcePos + 2 = v := Option.some.inj hv
  omega

/-- Claim C21 as amended: on a platform whose intptr_t has at least 32 bits
and in either build, for every synthetic position s with
kSmiMin32 + 2 ≤ s ≤ kLast - 1, FromSynthetic returns -s + (kLast - 1), which
is a real position between kMinSourcePos and kMaxSourcePos. -/
theorem FromSynthetic_maps_into_real (w : Nat) (debug : Bool) (s : Int)
    (hw : 32 ≤ w) (h1 : kSmiMin32 + 2 ≤ s)
    (h2 : s ≤ ClassifyingTokenPositions.kLast - 1) :
    IsSynthetic s = true ∧
    FromSynthetic w debug s =
      some (-s + (ClassifyingTokenPositions.kLast - 1)) ∧
    IsReal (-s + (ClassifyingTokenPositions.kLast - 1)) = true ∧
    kMinSourcePos ≤ -s + (ClassifyingTokenPositions.kLast - 1) ∧
    -s + (ClassifyingTokenPositions.kLast - 1) ≤ kMaxSourcePos := by
  have hH := two_pow_half_ge hw
  have hk : kMaxSourcePos = 1073741810 := by decide
  have hm : kSmiMin32 = -1073741824 := by decide
  have hlt : s < ClassifyingTokenPositions.kLast := by omega
  have hf : FitsWord w s := by
    unfold ClassifyingTokenPositions.kLast at hlt
    constructor <;> omega
  have h0 : kMinSourcePos ≤ -s + (ClassifyingTokenPositions.kLast - 1) := by
    unfold kMinSourcePos
    omega
  refine ⟨(IsSynthetic_iff s).2 hlt, FromSynthetic_synthetic debug hw hlt hf,
    (IsReal_iff _).2 h0, h0, ?_⟩
  unfold ClassifyingTokenPositions.kLast
  omega

/-- Witness of the amended claim C21 on a 32-bit word, in the debug build, at
the lowest position of the amended range, which decodes to kMaxSourcePos. -/
theorem FromSynthetic_maps_into_real_witness :
    (32 ≤ 32 ∧ kSmiMin32 + 2 ≤ kSmiMin32 + 2 ∧
      kSmiMin32 + 2 ≤ ClassifyingTokenPositions.kLast - 1) ∧
    FromSynthetic 32 true (kSmiMin32 + 2) = some kMaxSourcePos ∧
    IsReal (-(kSmiMin32 + 2) + (ClassifyingTokenPositions.kLast - 1)) = true :=
  ⟨by decide,
   (FromSynthetic_maps_into_real 32 true (kSmiMin32 + 2) (by decide)
     (by decide) (by decide)).2.1,
   (FromSynthetic_maps_into_real 32 true (kSmiMin32 + 2) (by decide)
     (by decide) (by decide)).2.2.1⟩

/-- Claim C24: on a platform whose intptr_t has at least 32 bits, for every
integer p ≤ kMaxSourcePos, whatever its class, the value ToSynthetic returns
with assertions compiled out is not a real position and not a debug pause
position. -/
theorem ToSynthetic_never_real (w : Nat) (p : Int) (hw : 32 ≤ w)
    (hp : p ≤ kMaxSourcePos) :
    ∃ v : Int, ToSynthetic w false p = some v ∧ IsReal v = false ∧
      IsDebugPause v = false := by
  have key : ∃ v : Int, ToSynthetic w false p = some v ∧ v < kMinSourcePos := by
    by_cases hs : IsSynthetic p = true
    · refine ⟨p, ToSynthetic_synthetic w false hs, ?_⟩
      have := (IsSynthetic_iff p).1 hs
      unfold ClassifyingTokenPositions.kLast at this
      unfold kMinSourcePos
      omega
    · have h0 : ClassifyingTokenPositions.kLast ≤ p :=
        (IsSynthetic_eq_false_iff p).1 (by simpa using hs)
      by_cases hn : p = kNoSourcePos
      · refine ⟨p, ToSynthetic_noSource w false ((IsNoSource_iff p).2 hn), ?_⟩
        rw [hn]
        decide
      · refine ⟨_, ToSynthetic_release hw h0 hp hn, ?_⟩
        unfold ClassifyingTokenPositions.kLast at h0 ⊢
        unfold kMinSourcePos
        omega
  obtain ⟨v, hv, hlt⟩ := key
  have hr : IsReal v = false := by
    rw [← Bool.not_eq_true, IsReal_iff]
    omega
  exact ⟨v, hv, hr, hr⟩

/-- Witness of claim C24 on a 64-bit word at the classifying position
kPrivate, which the release build maps to -10. -/
theorem ToSynthetic_never_real_witness :
    (32 ≤ 64 ∧ ClassifyingTokenPositions.kPrivate ≤ kMaxSourcePos) ∧
    ∃ v : Int, ToSynthetic 64 false ClassifyingTokenPositions.kPrivate =
        some v ∧ IsReal v = false ∧ IsDebugPause v = false :=
  ⟨by decide,
   ToSynthetic_never_real 64 ClassifyingTokenPositions.kPrivate (by decide)
     (by decide)⟩

/-- Claim C25: on a platform whose intptr_t has at least 32 bits and in either
build, for every p the word holds (in particular every p above the
negation-overflow boundary), FromSynthetic returns a value v that is not
synthetic and that FromSynthetic maps to itself; and v = p unless p is
synthetic. -/
theorem FromSynthetic_idempotent (w : Nat) (debug : Bool) (p : Int)
    (hw : 32 ≤ w) (hf : FitsWord w p) :
    ∃ v : Int, FromSynthetic w debug p = some v ∧ IsSynthetic v = false ∧
      FromSynthetic w debug v = some v ∧
      (IsSynthetic p = true ∨ v = p) := by
  by_cases hs : IsSynthetic p = true
  · have hlt := (IsSynthetic_iff p).1 hs
    have hv : IsSynthetic (-p + (ClassifyingTokenPositions.kLast - 1)) =
        false := by
      rw [IsSynthetic_eq_false_iff]
      unfold ClassifyingTokenPositions.kLast at hlt ⊢
      omega
    exact ⟨_, FromSynthetic_synthetic debug hw hlt hf, hv,
      FromSynthetic_not_synthetic w debug hv, Or.inl hs⟩
  · have hs2 : IsSynthetic p = false := by simpa using hs
    exact ⟨p, FromSynthetic_not_synthetic w debug hs2, hs2,
      FromSynthetic_not_synthetic w debug hs2, Or.inr rfl⟩

/-- Witness of claim C25 on a 64-bit word, in the debug build, at the
synthetic position -17, which decodes to 5. -/
theorem FromSynthetic_idempotent_witness :
    (32 ≤ 64 ∧ FitsWord 64 (-17)) ∧
    ∃ v : Int, FromSynthetic 64 true (-17) = some v ∧ IsSynthetic v = false ∧
      FromSynthetic 64 true v = some v ∧
      (IsSynthetic (-17) = true ∨ v = -17) :=
  ⟨by decide, FromSynthetic_idempotent 64 true (-17) (by decide) (by decide)⟩

/-- Claim C22: in either build, for every token kind k of the catalog, k lies
in the ordinal range from kFirstKeyword to kLastKeyword exactly when exactly
one of IsKeyword, IsPseudoKeyword is true of k; a kind outside that range has
neither attribute; no kind has both; and no kind satisfies both IsKeyword and
IsIdentifier. -/
theorem keyword_range_iff_attribute (debug : Bool) (k : Kind)
    (hk : k < kNumTokens) :
    ((kFirstKeyword ≤ k ∧ k ≤ kLastKeyword) ↔
      ((IsKeyword debug k = some true ∧ IsPseudoKeyword debug k = some false) ∨
       (IsKeyword debug k = some false ∧
         IsPseudoKeyword debug k = some true))) ∧
    ((kFirstKeyword ≤ k ∧ k ≤ kLastKeyword) ∨
      (IsKeyword debug k = some false ∧
        IsPseudoKeyword debug k = some false)) ∧
    ¬ (IsKeyword debug k = some true ∧ IsPseudoKeyword debug k = some true) ∧
    ¬ (IsKeyword debug k = some true ∧ IsIdentifier debug k = some true) := by
  revert hk
  cases debug <;> cases k <;> decide

/-- Witness of claim C22 at the keyword kIS, in the debug build. -/
theorem keyword_range_iff_attribute_witness :
    kIS < kNumTokens ∧
    ((kFirstKeyword ≤ kIS ∧ kIS ≤ kLastKeyword) ↔
      ((IsKeyword true kIS = some true ∧
          IsPseudoKeyword true kIS = some false) ∨
       (IsKeyword true kIS = some false ∧
         IsPseudoKeyword true kIS = some true))) ∧
    ¬ (IsKeyword true kIS = some true ∧ IsIdentifier true kIS = some true) :=
  ⟨by decide,
   (keyword_range_iff_attribute true kIS (by decide)).1,
   (keyword_range_iff_attribute true kIS (by decide)).2.2.2⟩

/-- Claim C23: in either build, two distinct token kinds a and b whose
spellings are both non-empty have different spellings, unless they are the
pair kRBRACE and kINTERPOL_END, which are both spelled with the closing
brace. -/
theorem spellings_distinct (debug : Bool) (a b : Kind) (sa sb : String)
    (ha : Str debug a = some sa) (hb : Str debug b = some sb)
    (hab : a ≠ b) (hna : sa ≠ "") (hnb : sb ≠ "")
    (hex : ¬ ((a = kRBRACE ∧ b = kINTERPOL_END) ∨
      (a = kINTERPOL_END ∧ b = kRBRACE))) :
    sa ≠ sb ∧
    (Str debug kRBRACE = some "\x7d" ∧
      Str debug kINTERPOL_END = some "\x7d") := by
  have hbrace : tok_str_.indexOf "\x7d" = kRBRACE.ord := by decide
  have hr : Str debug kRBRACE = some "\x7d" := by cases debug <;> decide
  refine ⟨?_, hr, Str_kINTERPOL_END debug⟩
  intro heq
  by_cases hae : a = kINTERPOL_END
  · have hbe : b ≠ kINTERPOL_END := fun h => hab (hae.trans h.symm)
    have hsa : sa = "\x7d" := by
      rw [hae, Str_kINTERPOL_END debug] at ha
      exact (Option.some.inj ha).symm
    have hi := spelling_first_index debug hb hnb hbe
    rw [← heq, hsa, hbrace] at hi
    exact hex (Or.inr ⟨hae, (ord_injective hi).symm⟩)
  · by_cases hbe : b = kINTERPOL_END
    · have hsb : sb = "\x7d" := by
        rw [hbe, Str_kINTERPOL_END debug] at hb
        exact (Option.some.inj hb).symm
      have hi := spelling_first_index debug ha hna hae
      rw [heq, hsb, hbrace] at hi
      exact hex (Or.inl ⟨(ord_injective hi).symm, hbe⟩)
    · have hia := spelling_first_index debug ha hna hae
      have hib := spelling_first_index debug hb hnb hbe
      rw [heq, hib] at hia
      exact hab (ord_injective hia).symm

/-- Witness of claim C23 at the kinds kLBRACE and kRBRACE, in the debug
build. -/
theorem spellings_distinct_witness :
    (Str true kLBRACE = some "\x7b" ∧ Str true kRBRACE = some "\x7d" ∧
      kLBRACE ≠ kRBRACE) ∧
    ("\x7b" ≠ "\x7d" ∧
      (Str true kRBRACE = some "\x7d" ∧
        Str true kINTERPOL_END = some "\x7d")) :=
  ⟨by decide,
   spellings_distinct true kLBRACE kRBRACE "\x7b" "\x7d" (by decide)
     (by decide) (by decide) (by decide) (by decide) (by decide)⟩

end Token

end dart
